import Mathlib

/-!
Shallow embedding of the parking-lot core of the repository
(`scripts/main.js`, `scripts/operator.js`, `scripts/admin.js`).

The registry is the global array `sampleSlots`; every operation is a
synchronous update of that array, modelled here by explicit state passing
on `List Slot`.  An operation that in the source shows an error alert and
returns early (leaving the global array untouched) is modelled as
`Except.error msg` carrying the alert message verbatim; the registry is
then unchanged by construction, exactly as in the source.  Timestamps
(`new Date()`) are integer milliseconds supplied as a parameter; the
floating-point fee arithmetic of the source is carried out exactly in ℚ
(all quantities involved — integer millisecond differences divided by
3,600,000, the rates 2.50 / 1.50 / 4.00 — are exact), and a JavaScript
`NaN` result (undefined rate or undefined entry time) is the distinguished
value `FeeVal.nan`.
-/

deriving instance DecidableEq for Except

/-- Occupancy state of a slot: the source stores the strings
`available` / `occupied` and only ever compares them to these two
literals. -/
inductive Status where
  | available : Status
  | occupied : Status
deriving DecidableEq

/-- A parking slot, mirroring the objects stored in `sampleSlots`:
`vehicleNumber`, `vehicleType`, `entryTime` are absent (deleted) on an
available slot, modelled by `Option`. -/
structure Slot where
  id : String
  status : Status
  vehicleNumber : Option String
  vehicleType : Option String
  entryTime : Option Int
deriving DecidableEq

/-- Model of `value.trim().toUpperCase()`, applied by the source to slot ids and
vehicle numbers before comparison and storage: whitespace is stripped from
both ends and every character is uppercased, spelled out on the character
list. -/
def normalizeInput (s : String) : String :=
  String.mk ((((s.data.dropWhile Char.isWhitespace).reverse.dropWhile
    Char.isWhitespace).reverse).map Char.toUpper)

/-- The `parkingRates` object of `operator.js` / `admin.js`
(`{car: 2.50, motorcycle: 1.50, truck: 4.00}`); property lookup on a
missing key yields `undefined`, i.e. `none`. -/
def parkingRates (vehicleType : String) : Option ℚ :=
  if vehicleType = "car" then some (5/2)
  else if vehicleType = "motorcycle" then some (3/2)
  else if vehicleType = "truck" then some 4
  else none

/-- Result of the fee arithmetic in the source: either an exact number or the
JavaScript `NaN` produced when the rate (or the entry time) is
`undefined`. -/
inductive FeeVal where
  | num : ℚ → FeeVal
  | nan : FeeVal
deriving DecidableEq

/-- The fee arithmetic of `handleRemoval` (operator.js lines 152–157):
`durationHours = (exitTime - entryTime) / 3600000`,
`rate = parkingRates[vehicleType]`, `fee = Math.ceil(durationHours) * rate`.
An unknown `vehicleType` makes `rate` undefined and the product `NaN`. -/
def computeFee (entryTime exitTime : Int) (vehicleType : String) : FeeVal :=
  match parkingRates vehicleType with
  | none => FeeVal.nan
  | some rate => FeeVal.num ((⌈((exitTime : ℚ) - (entryTime : ℚ)) / 3600000⌉ : ℤ) * rate)

/-- Fee produced by `handleRemoval` for the matched slot: if the slot has
no `entryTime` or no `vehicleType` (impossible for a reachable occupied
slot, but `new Date(undefined)` would give `NaN` math), the fee is `NaN`. -/
def removalFee (slot : Slot) (now : Int) : FeeVal :=
  match slot.entryTime, slot.vehicleType with
  | some entry, some vt => computeFee entry now vt
  | _, _ => FeeVal.nan

/-- The predicate shared by the duplicate check in `handleParking` and the
lookups in `handleRemoval` / `confirmPayment`:
`slot.status === occupied && slot.vehicleNumber === vehicleNumber`. -/
def occWith (vehicleNumber : String) (s : Slot) : Bool :=
  s.status == Status.occupied && s.vehicleNumber == some vehicleNumber

/-- The find of the first slot whose status is available, followed by the
in-place mutation of the found slot (operator.js lines 92–103): returns the
id of the chosen slot and the updated registry, or `none` when no slot is
available. -/
def parkFirstAvailable (slots : List Slot) (vn vt : String) (now : Int) :
    Option (String × List Slot) :=
  match slots with
  | [] => none
  | s :: rest =>
    if s.status = Status.available then
      some (s.id, ⟨s.id, Status.occupied, some vn, some vt, some now⟩ :: rest)
    else
      (parkFirstAvailable rest vn vt now).map (fun r => (r.1, s :: r.2))

/-- Model of `handleParking` (operator.js lines 71–115), with the DOM reads replaced
by parameters: normalizes the vehicle number, validates both fields
non-empty, rejects a vehicle already parked, parks in the first available
slot stamping `entryTime := now`, and reports the id of the chosen slot. -/
def handleParking (slots : List Slot) (vehicleNumberRaw vehicleType : String) (now : Int) :
    Except String (String × List Slot) :=
  if normalizeInput vehicleNumberRaw = "" ∨ vehicleType = "" then
    Except.error "Please fill in all fields"
  else if slots.any (occWith (normalizeInput vehicleNumberRaw)) then
    Except.error "This vehicle is already parked"
  else
    match parkFirstAvailable slots (normalizeInput vehicleNumberRaw) vehicleType now with
    | none => Except.error "No available parking slots"
    | some r => Except.ok r

/-- Model of `handleRemoval` (operator.js lines 129–167): normalizes the vehicle
number, validates it non-empty, finds the occupied slot holding it, and
displays the fee.  It performs no writes to `sampleSlots`, so the returned
registry is the input registry. -/
def handleRemoval (slots : List Slot) (vehicleNumberRaw : String) (now : Int) :
    Except String (FeeVal × List Slot) :=
  if normalizeInput vehicleNumberRaw = "" then
    Except.error "Please enter a vehicle number"
  else
    match slots.find? (occWith (normalizeInput vehicleNumberRaw)) with
    | none => Except.error "Vehicle not found in parking"
    | some slot => Except.ok (removalFee slot now, slots)

/-- The mutation of `confirmPayment` (operator.js lines 176–185):
`findIndex` of the first occupied slot holding the number, then set it
available and delete the three vehicle fields; if no index matches, the
registry is untouched. -/
def clearFirst (slots : List Slot) (vn : String) : List Slot :=
  match slots with
  | [] => []
  | s :: rest =>
    if occWith vn s then
      ⟨s.id, Status.available, none, none, none⟩ :: rest
    else
      s :: clearFirst rest vn

/-- Model of `confirmPayment` (operator.js lines 172–196): reads the same input
field, normalizes, and clears the first matching occupied slot; a missing
match is a silent no-op. -/
def confirmPayment (slots : List Slot) (vehicleNumberRaw : String) : List Slot :=
  clearFirst slots (normalizeInput vehicleNumberRaw)

/-- Model of `cancelRemoval` (operator.js lines 201–204): resets the form and hides
the fee display only — the registry is untouched. -/
def cancelRemoval (slots : List Slot) : List Slot := slots

/-- Model of `addParkingSlot` (admin.js lines 97–126): normalizes the id, validates
it non-empty, rejects an existing id (`sampleSlots.some(slot => slot.id
=== slotId)`), and pushes a fresh available slot. -/
def addParkingSlot (slots : List Slot) (slotIdRaw : String) : Except String (List Slot) :=
  if normalizeInput slotIdRaw = "" then
    Except.error "Please enter a slot ID"
  else if slots.any (fun s => s.id == normalizeInput slotIdRaw) then
    Except.error "Slot already exists"
  else
    Except.ok (slots ++ [⟨normalizeInput slotIdRaw, Status.available, none, none, none⟩])

/-- The `findIndex` / occupancy-check / `splice` of `removeParkingSlot`
(admin.js lines 145–159), as recursion on the first slot whose id
matches. -/
def removeSlotAux (slots : List Slot) (slotId : String) : Except String (List Slot) :=
  match slots with
  | [] => Except.error "Slot not found"
  | s :: rest =>
    if s.id = slotId then
      if s.status = Status.occupied then Except.error "Cannot remove an occupied slot"
      else Except.ok rest
    else
      (removeSlotAux rest slotId).map (fun r => s :: r)

/-- Model of `removeParkingSlot` (admin.js lines 133–167): normalizes the id,
validates it non-empty, then looks the slot up and removes it unless
occupied. -/
def removeParkingSlot (slots : List Slot) (slotIdRaw : String) : Except String (List Slot) :=
  if normalizeInput slotIdRaw = "" then
    Except.error "Please enter a slot ID"
  else
    removeSlotAux slots (normalizeInput slotIdRaw)

/-- The initial `sampleSlots` array of `main.js` (lines 149–154); `t0` is
the load-time timestamp `new Date()` stored in B1. -/
def initialSlots (t0 : Int) : List Slot :=
  [⟨"A1", Status.available, none, none, none⟩,
   ⟨"A2", Status.available, none, none, none⟩,
   ⟨"B1", Status.occupied, some "ABC123", some "car", some t0⟩,
   ⟨"B2", Status.available, none, none, none⟩]

/-- Registry states reachable from the page-load state by the UI
operations (the fee-quote and cancel operations do not change the
registry but are included for completeness). -/
inductive Reachable : List Slot → Prop where
  | init (t0 : Int) : Reachable (initialSlots t0)
  | park {st st2 : List Slot} {raw vt slotId : String} {now : Int} :
      Reachable st → handleParking st raw vt now = Except.ok (slotId, st2) → Reachable st2
  | removal {st st2 : List Slot} {raw : String} {now : Int} {fee : FeeVal} :
      Reachable st → handleRemoval st raw now = Except.ok (fee, st2) → Reachable st2
  | confirm {st : List Slot} (raw : String) : Reachable st → Reachable (confirmPayment st raw)
  | cancel {st : List Slot} : Reachable st → Reachable (cancelRemoval st)
  | add {st st2 : List Slot} {raw : String} :
      Reachable st → addParkingSlot st raw = Except.ok st2 → Reachable st2
  | remove {st st2 : List Slot} {raw : String} :
      Reachable st → removeParkingSlot st raw = Except.ok st2 → Reachable st2

/-! ### Helper lemmas -/

theorem parkFirstAvailable_append (l1 : List Slot) (a : Slot) (l2 : List Slot)
    (vn vt : String) (now : Int) (ha : a.status = Status.available)
    (hl1 : ∀ s ∈ l1, s.status ≠ Status.available) :
    parkFirstAvailable (l1 ++ a :: l2) vn vt now =
      some (a.id, l1 ++ ⟨a.id, Status.occupied, some vn, some vt, some now⟩ :: l2) := by
  induction l1 with
  | nil => simp [parkFirstAvailable, ha]
  | cons s rest ih =>
    have hs : ¬ s.status = Status.available := hl1 s (List.mem_cons_self s rest)
    have ih2 := ih (fun x hx => hl1 x (List.mem_cons_of_mem s hx))
    simp [parkFirstAvailable, hs, ih2]

theorem find_occ_append (l1 : List Slot) (a : Slot) (l2 : List Slot) (vn : String)
    (hl1 : ∀ s ∈ l1, occWith vn s = false) (ha : occWith vn a = true) :
    (l1 ++ a :: l2).find? (occWith vn) = some a := by
  induction l1 with
  | nil => simp [List.find?_cons, ha]
  | cons s rest ih =>
    have hs := hl1 s (List.mem_cons_self s rest)
    have ih2 := ih (fun x hx => hl1 x (List.mem_cons_of_mem s hx))
    simp [List.find?_cons, hs, ih2]

theorem clearFirst_append (l1 : List Slot) (a : Slot) (l2 : List Slot) (vn : String)
    (hl1 : ∀ s ∈ l1, occWith vn s = false) (ha : occWith vn a = true) :
    clearFirst (l1 ++ a :: l2) vn =
      l1 ++ (⟨a.id, Status.available, none, none, none⟩ : Slot) :: l2 := by
  induction l1 with
  | nil => simp [clearFirst, ha]
  | cons s rest ih =>
    have hs := hl1 s (List.mem_cons_self s rest)
    have ih2 := ih (fun x hx => hl1 x (List.mem_cons_of_mem s hx))
    simp [clearFirst, hs, ih2]

theorem removeSlotAux_not_found (slots : List Slot) (slotId : String)
    (h : ∀ s ∈ slots, s.id ≠ slotId) :
    removeSlotAux slots slotId = Except.error "Slot not found" := by
  induction slots with
  | nil => simp [removeSlotAux]
  | cons s rest ih =>
    have hs : ¬ s.id = slotId := h s (List.mem_cons_self s rest)
    have ih2 := ih (fun x hx => h x (List.mem_cons_of_mem s hx))
    simp [removeSlotAux, hs, ih2, Except.map]

theorem removeSlotAux_append (l1 : List Slot) (a : Slot) (l2 : List Slot)
    (hl1 : ∀ s ∈ l1, s.id ≠ a.id) :
    removeSlotAux (l1 ++ a :: l2) a.id =
      if a.status = Status.occupied then Except.error "Cannot remove an occupied slot"
      else Except.ok (l1 ++ l2) := by
  induction l1 with
  | nil => simp [removeSlotAux]
  | cons s rest ih =>
    have hs : ¬ s.id = a.id := hl1 s (List.mem_cons_self s rest)
    have ih2 := ih (fun x hx => hl1 x (List.mem_cons_of_mem s hx))
    by_cases hocc : a.status = Status.occupied
    · simp [removeSlotAux, hs, ih2, hocc, Except.map]
    · simp [removeSlotAux, hs, ih2, hocc, Except.map]

theorem handleRemoval_state (slots : List Slot) (raw : String) (now : Int)
    (fee : FeeVal) (slots2 : List Slot)
    (h : handleRemoval slots raw now = Except.ok (fee, slots2)) : slots2 = slots := by
  unfold handleRemoval at h
  split at h
  · exact absurd h (by simp)
  · split at h
    · exact absurd h (by simp)
    · simp at h
      exact h.2.symm

theorem handleParking_ok (slots : List Slot) (raw vt : String) (now : Int)
    (slotId : String) (slots2 : List Slot)
    (h : handleParking slots raw vt now = Except.ok (slotId, slots2)) :
    slots.any (occWith (normalizeInput raw)) = false ∧
      parkFirstAvailable slots (normalizeInput raw) vt now = some (slotId, slots2) := by
  unfold handleParking at h
  split at h
  · exact absurd h (by simp)
  · split at h
    · exact absurd h (by simp)
    · rename_i hdup
      constructor
      · exact Bool.eq_false_iff.mpr hdup
      · split at h
        · exact absurd h (by simp)
        · rename_i r hr
          simp at h
          rw [hr, h]

theorem addParkingSlot_ok (slots : List Slot) (raw : String) (slots2 : List Slot)
    (h : addParkingSlot slots raw = Except.ok slots2) :
    slots2 = slots ++ [⟨normalizeInput raw, Status.available, none, none, none⟩] := by
  unfold addParkingSlot at h
  split at h
  · exact absurd h (by simp)
  · split at h
    · exact absurd h (by simp)
    · simp at h
      exact h.symm

theorem countP_parkFirstAvailable (slots : List Slot) (vn vt : String) (now : Int)
    (slotId : String) (slots2 : List Slot)
    (h : parkFirstAvailable slots vn vt now = some (slotId, slots2)) (n : String) :
    slots2.countP (occWith n) = slots.countP (occWith n) + (if vn = n then 1 else 0) := by
  induction slots generalizing slotId slots2 with
  | nil => simp [parkFirstAvailable] at h
  | cons s rest ih =>
    unfold parkFirstAvailable at h
    split at h
    · rename_i ha
      simp only [Option.some.injEq, Prod.mk.injEq] at h
      rw [← h.2]
      simp [List.countP_cons, occWith, ha]
    · rename_i ha
      rw [Option.map_eq_some'] at h
      obtain ⟨r, hr, heq⟩ := h
      simp only [Prod.mk.injEq] at heq
      rw [← heq.2]
      have ihr := ih r.1 r.2 (by rw [hr])
      simp only [List.countP_cons, ihr]
      omega

theorem countP_clearFirst_le (slots : List Slot) (vn n : String) :
    (clearFirst slots vn).countP (occWith n) ≤ slots.countP (occWith n) := by
  induction slots with
  | nil => simp [clearFirst]
  | cons s rest ih =>
    unfold clearFirst
    split
    · simp [List.countP_cons, occWith]
    · simp only [List.countP_cons]
      omega

theorem countP_removeSlotAux_le (slots : List Slot) (slotId : String) (slots2 : List Slot)
    (h : removeSlotAux slots slotId = Except.ok slots2) (p : Slot → Bool) :
    slots2.countP p ≤ slots.countP p := by
  induction slots generalizing slots2 with
  | nil => simp [removeSlotAux] at h
  | cons s rest ih =>
    unfold removeSlotAux at h
    split at h
    · split at h
      · exact absurd h (by simp)
      · simp only [Except.ok.injEq] at h
        rw [← h]
        simp only [List.countP_cons]
        omega
    · cases hrec : removeSlotAux rest slotId with
      | error e => rw [hrec] at h; simp [Except.map] at h
      | ok r =>
        rw [hrec] at h
        simp only [Except.map, Except.ok.injEq] at h
        rw [← h]
        simp only [List.countP_cons]
        have := ih r hrec
        omega

theorem initial_unique (t0 : Int) (n : String) :
    (initialSlots t0).countP (occWith n) ≤ 1 := by
  by_cases h : "ABC123" = n
  · simp [initialSlots, occWith, List.countP_cons, h]
  · simp [initialSlots, occWith, List.countP_cons, h]

theorem vehicleUnique_park (st : List Slot) (raw vt : String) (now : Int)
    (slotId : String) (st2 : List Slot)
    (h : handleParking st raw vt now = Except.ok (slotId, st2))
    (hu : st.countP (occWith n) ≤ 1) :
    st2.countP (occWith n) ≤ 1 := by
  obtain ⟨hdup, hpark⟩ := handleParking_ok st raw vt now slotId st2 h
  have hc := countP_parkFirstAvailable st (normalizeInput raw) vt now slotId st2 hpark n
  by_cases hn : normalizeInput raw = n
  · rw [hc, if_pos hn]
    have h0 : st.countP (occWith n) = 0 := by
      rw [List.countP_eq_zero]
      intro a ha
      have hall := List.any_eq_false.mp hdup a ha
      rw [hn] at hall
      exact hall
    omega
  · rw [hc, if_neg hn]
    omega

/-- Every registry state reachable from page load keeps each vehicle
number in at most one occupied slot. -/
theorem reachable_vehicleUnique (st : List Slot) (h : Reachable st) (n : String) :
    st.countP (occWith n) ≤ 1 := by
  induction h with
  | init t0 => exact initial_unique t0 n
  | park hr hok ih => exact vehicleUnique_park _ _ _ _ _ _ hok ih
  | removal hr hok ih =>
    rw [handleRemoval_state _ _ _ _ _ hok]
    exact ih
  | confirm raw hr ih => exact le_trans (countP_clearFirst_le _ _ _) ih
  | cancel hr ih => exact ih
  | add hr hok ih =>
    rw [addParkingSlot_ok _ _ _ hok]
    rw [List.countP_append]
    simpa [occWith] using ih
  | remove hr hok ih =>
    unfold removeParkingSlot at hok
    split at hok
    · exact absurd hok (by simp)
    · exact le_trans (countP_removeSlotAux_le _ _ _ hok _) ih

/-! ### Claim theorems -/

/-- Claim C1: for every registry containing an Available slot (the
decomposition `l1 ++ a :: l2` with every slot of `l1` unavailable singles
out the earliest-inserted Available slot `a`) and every valid vehicle
number (non-empty after normalization, not already parked) and non-empty
vehicle type, `handleParking` marks exactly that slot Occupied, stamps its
`entryTime` with the current time, and reports the id of that slot. -/
theorem admit_selects_first_available (l1 : List Slot) (a : Slot) (l2 : List Slot)
    (vnRaw vt : String) (now : Int)
    (hvn : normalizeInput vnRaw ≠ "") (hvt : vt ≠ "")
    (hdup : (l1 ++ a :: l2).any (occWith (normalizeInput vnRaw)) = false)
    (ha : a.status = Status.available)
    (hl1 : ∀ s ∈ l1, s.status ≠ Status.available) :
    handleParking (l1 ++ a :: l2) vnRaw vt now =
      Except.ok (a.id, l1 ++
        (⟨a.id, Status.occupied, some (normalizeInput vnRaw), some vt, some now⟩ : Slot)
          :: l2) := by
  unfold handleParking
  rw [if_neg (not_or.mpr ⟨hvn, hvt⟩)]
  rw [if_neg (by rw [hdup]; simp)]
  rw [parkFirstAvailable_append l1 a l2 (normalizeInput vnRaw) vt now ha hl1]

/-- Witness for C1 on the page-load registry: vehicle ZZ9 is assigned the
earliest available slot A1. -/
theorem admit_selects_first_available_witness :
    handleParking (initialSlots 0) "zz9" "car" 7 =
      Except.ok ("A1", [⟨"A1", Status.occupied, some "ZZ9", some "car", some 7⟩,
        ⟨"A2", Status.available, none, none, none⟩,
        ⟨"B1", Status.occupied, some "ABC123", some "car", some 0⟩,
        ⟨"B2", Status.available, none, none, none⟩]) := by
  exact admit_selects_first_available [] ⟨"A1", Status.available, none, none, none⟩
    [⟨"A2", Status.available, none, none, none⟩,
     ⟨"B1", Status.occupied, some "ABC123", some "car", some 0⟩,
     ⟨"B2", Status.available, none, none, none⟩]
    "zz9" "car" 7 (by decide) (by decide) (by decide) rfl (by decide)

/-- Claim C2: whenever `exitTime ≥ entryTime` and the vehicle type is in
the rate table, the fee is `⌈(exitTime - entryTime) / 3600000⌉ · rate`;
in particular a zero-length stay costs 0 for every type in the table, and
a 61-minute car stay costs 5.00. -/
theorem fee_ceiling_rule :
    (∀ (entry exit : Int) (vt : String) (rate : ℚ), entry ≤ exit →
      parkingRates vt = some rate →
      computeFee entry exit vt =
        FeeVal.num ((⌈((exit : ℚ) - (entry : ℚ)) / 3600000⌉ : ℤ) * rate)) ∧
    (∀ (entry : Int) (vt : String) (rate : ℚ), parkingRates vt = some rate →
      computeFee entry entry vt = FeeVal.num 0) ∧
    (∀ entry : Int, computeFee entry (entry + 3660000) "car" = FeeVal.num 5) := by
  refine ⟨?_, ?_, ?_⟩
  · intro entry exit vt rate _ hr
    simp [computeFee, hr]
  · intro entry vt rate hr
    simp [computeFee, hr]
  · intro entry
    have hr : parkingRates "car" = some (5/2) := rfl
    simp only [computeFee, hr]
    have hd : ((entry + 3660000 : Int) : ℚ) - (entry : ℚ) = 61 / 60 * 3600000 := by
      push_cast
      ring
    rw [hd]
    rw [show ((61 / 60 * 3600000 : ℚ) / 3600000) = 61 / 60 by ring]
    rw [show (⌈(61 / 60 : ℚ)⌉ : ℤ) = 2 from by
      rw [Int.ceil_eq_iff]
      norm_num]
    norm_num

/-- Witness for C2: a one-hour car stay, a zero-length truck stay, and the
61-minute car stay. -/
theorem fee_ceiling_rule_witness :
    computeFee 0 3600000 "car" =
      FeeVal.num ((⌈((3600000 : ℚ) - (0 : ℚ)) / 3600000⌉ : ℤ) * (5/2)) ∧
    computeFee 5 5 "truck" = FeeVal.num 0 ∧
    computeFee 0 3660000 "car" = FeeVal.num 5 :=
  ⟨fee_ceiling_rule.1 0 3600000 "car" (5/2) (by norm_num) rfl,
   fee_ceiling_rule.2.1 5 "truck" 4 rfl,
   fee_ceiling_rule.2.2 0⟩

/-- Claim C3 counterexample: the source performs no time-range validation.
With a stored entry time two hours after the exit time, the release quote
does not fail — it succeeds and returns the fee `⌈-2⌉ · 2.50 = -5`. -/
theorem releaseQuote_no_timeRange_check :
    handleRemoval [⟨"B1", Status.occupied, some "ABC123", some "car", some 7200000⟩]
        "ABC123" 0 =
      Except.ok (FeeVal.num (-5),
        [⟨"B1", Status.occupied, some "ABC123", some "car", some 7200000⟩]) := by
  have hfee : computeFee 7200000 0 "car" = FeeVal.num (-5) := by
    simp only [computeFee, parkingRates]
    norm_num
    rw [show (⌈(-2 : ℚ)⌉ : ℤ) = -2 from by
      rw [Int.ceil_eq_iff]
      norm_num]
    norm_num
  have hstep : handleRemoval
      [⟨"B1", Status.occupied, some "ABC123", some "car", some 7200000⟩] "ABC123" 0 =
      Except.ok (computeFee 7200000 0 "car",
        [⟨"B1", Status.occupied, some "ABC123", some "car", some 7200000⟩]) := rfl
  rw [hstep, hfee]

/-- Claim C3 (amended): for `exitTime < entryTime` and a type in the rate
table, the fee computation does not fail; it returns the ceiling of the
negative duration times the rate, a non-positive fee. -/
theorem fee_negative_duration (entry exit : Int) (vt : String) (rate : ℚ)
    (hr : parkingRates vt = some rate) (hlt : exit < entry) :
    computeFee entry exit vt =
      FeeVal.num ((⌈((exit : ℚ) - (entry : ℚ)) / 3600000⌉ : ℤ) * rate) ∧
    ((⌈((exit : ℚ) - (entry : ℚ)) / 3600000⌉ : ℤ) : ℚ) * rate ≤ 0 := by
  constructor
  · simp [computeFee, hr]
  · have hrate : 0 ≤ rate := by
      unfold parkingRates at hr
      split at hr
      · cases hr
        norm_num
      · split at hr
        · cases hr
          norm_num
        · split at hr
          · cases hr
            norm_num
          · cases hr
    have hneg : ((exit : ℚ) - (entry : ℚ)) / 3600000 ≤ 0 := by
      apply div_nonpos_of_nonpos_of_nonneg
      · have : (exit : ℚ) < (entry : ℚ) := by exact_mod_cast hlt
        linarith
      · norm_num
    have hceil : (⌈((exit : ℚ) - (entry : ℚ)) / 3600000⌉ : ℤ) ≤ 0 :=
      Int.ceil_le.mpr (by exact_mod_cast hneg)
    have hcast : ((⌈((exit : ℚ) - (entry : ℚ)) / 3600000⌉ : ℤ) : ℚ) ≤ 0 := by
      exact_mod_cast hceil
    exact mul_nonpos_iff.mpr (Or.inr ⟨hcast, hrate⟩)

/-- Witness for amended C3: entry two hours after exit, car rate. -/
theorem fee_negative_duration_witness :
    computeFee 7200000 0 "car" =
      FeeVal.num ((⌈((0 : ℚ) - (7200000 : ℚ)) / 3600000⌉ : ℤ) * (5/2)) ∧
    ((⌈((0 : ℚ) - (7200000 : ℚ)) / 3600000⌉ : ℤ) : ℚ) * (5/2) ≤ 0 := by
  have h := fee_negative_duration 7200000 0 "car" (5/2) rfl (by norm_num)
  exact_mod_cast h

/-- Claim C4 counterexample: a release quote for a vehicle whose stored
type is not in the rate table does not fail with any error — the quote
succeeds, the undefined rate makes the fee `NaN`, and the registry slot is
returned unchanged. -/
theorem releaseQuote_unknown_type_cex :
    handleRemoval [⟨"B1", Status.occupied, some "XYZ1", some "bicycle", some 0⟩]
        "XYZ1" 3600000 =
      Except.ok (FeeVal.nan,
        [⟨"B1", Status.occupied, some "XYZ1", some "bicycle", some 0⟩]) := by
  rfl

/-- Claim C4 (amended): for `entryTime ≤ exitTime` and a vehicle type that
is not a key of the rate table, the fee computation does not fail with an
error; the rate lookup yields `undefined` and the computed fee is `NaN`. -/
theorem fee_unknown_type_nan (entry exit : Int) (vt : String)
    (_hle : entry ≤ exit) (hr : parkingRates vt = none) :
    computeFee entry exit vt = FeeVal.nan := by
  simp [computeFee, hr]

/-- Witness for amended C4: a one-hour stay of a "bicycle". -/
theorem fee_unknown_type_nan_witness :
    computeFee 0 3600000 "bicycle" = FeeVal.nan :=
  fee_unknown_type_nan 0 3600000 "bicycle" (by norm_num) rfl

/-- Claim C5: a successful release quote leaves the registry unchanged —
the matched slot is still Occupied with its vehicle number — and a
subsequent `cancelRemoval` also returns the registry unchanged; the fee
was computed from the snapshot of the matched slot. -/
theorem release_quote_preserves_registry (st : List Slot) (raw : String) (now : Int)
    (fee : FeeVal) (st2 : List Slot)
    (h : handleRemoval st raw now = Except.ok (fee, st2)) :
    st2 = st ∧ cancelRemoval st2 = st ∧
      ∃ slot, st.find? (occWith (normalizeInput raw)) = some slot ∧
        slot.status = Status.occupied ∧ slot.vehicleNumber = some (normalizeInput raw) ∧
        fee = removalFee slot now := by
  unfold handleRemoval at h
  split at h
  · exact absurd h (by simp)
  · split at h
    · exact absurd h (by simp)
    · rename_i slot hfind
      simp only [Except.ok.injEq, Prod.mk.injEq] at h
      obtain ⟨hfee, hst⟩ := h
      subst hst
      refine ⟨rfl, rfl, slot, hfind, ?_, ?_, hfee.symm⟩
      · have hp := List.find?_some hfind
        simp only [occWith, Bool.and_eq_true, beq_iff_eq] at hp
        exact hp.1
      · have hp := List.find?_some hfind
        simp only [occWith, Bool.and_eq_true, beq_iff_eq] at hp
        exact hp.2

/-- Witness for C5: quoting vehicle ABC123 on the page-load registry. -/
theorem release_quote_preserves_registry_witness :
    initialSlots 3 = initialSlots 3 ∧ cancelRemoval (initialSlots 3) = initialSlots 3 ∧
      ∃ slot, (initialSlots 3).find? (occWith (normalizeInput "abc123")) = some slot ∧
        slot.status = Status.occupied ∧ slot.vehicleNumber = some (normalizeInput "abc123") ∧
        removalFee ⟨"B1", Status.occupied, some "ABC123", some "car", some 3⟩ 9 =
          removalFee slot 9 :=
  release_quote_preserves_registry (initialSlots 3) "abc123" 9
    (removalFee ⟨"B1", Status.occupied, some "ABC123", some "car", some 3⟩ 9)
    (initialSlots 3) rfl

/-- Claim C6: in every reachable registry state a normalized vehicle
number occupies at most one slot, and admitting a vehicle number already
held by an occupied slot (with valid non-empty inputs) fails with the
duplicate-vehicle error — the error case performs no registry change by
construction. -/
theorem vehicle_unique_and_duplicate_rejected :
    (∀ st, Reachable st → ∀ n, st.countP (occWith n) ≤ 1) ∧
    (∀ (st : List Slot) (raw vt : String) (now : Int), normalizeInput raw ≠ "" → vt ≠ "" →
      st.any (occWith (normalizeInput raw)) = true →
      handleParking st raw vt now = Except.error "This vehicle is already parked") := by
  constructor
  · exact fun st h n => reachable_vehicleUnique st h n
  · intro st raw vt now hvn hvt hdup
    unfold handleParking
    rw [if_neg (not_or.mpr ⟨hvn, hvt⟩), if_pos hdup]

/-- Witness for C6: the page-load state, and re-admitting ABC123 there. -/
theorem vehicle_unique_and_duplicate_rejected_witness :
    (initialSlots 0).countP (occWith "ABC123") ≤ 1 ∧
    handleParking (initialSlots 0) "abc123" "car" 5 =
      Except.error "This vehicle is already parked" :=
  ⟨vehicle_unique_and_duplicate_rejected.1 (initialSlots 0) (Reachable.init 0) "ABC123",
   vehicle_unique_and_duplicate_rejected.2 (initialSlots 0) "abc123" "car" 5
     (by decide) (by decide) (by decide)⟩

/-- Claim C7 counterexample: blank input.  No slot of the page-load
registry carries the normalized id `""`, so the claim predicts the
slot-not-found error, but the source fails with the input-validation
alert instead. -/
theorem removeSlot_blank_cex :
    (∀ s ∈ initialSlots 0, s.id ≠ normalizeInput "   ") ∧
    removeParkingSlot (initialSlots 0) "   " = Except.error "Please enter a slot ID" ∧
    removeParkingSlot (initialSlots 0) "   " ≠ Except.error "Slot not found" := by
  refine ⟨by decide, by decide, by decide⟩

/-- Claim C7 (amended): for a non-blank id, `removeParkingSlot` fails with
the slot-not-found error when no slot carries the normalized id and with
the occupied-slot error when the (first) matching slot is Occupied, and on
success deletes exactly that slot; blank input fails with the validation
alert.  Every failure is an early return, so the registry is unchanged on
failure by construction. -/
theorem removeSlot_spec (st : List Slot) (raw : String) :
    (normalizeInput raw = "" →
      removeParkingSlot st raw = Except.error "Please enter a slot ID") ∧
    (normalizeInput raw ≠ "" → (∀ s ∈ st, s.id ≠ normalizeInput raw) →
      removeParkingSlot st raw = Except.error "Slot not found") ∧
    (∀ (l1 : List Slot) (a : Slot) (l2 : List Slot), normalizeInput raw ≠ "" →
      st = l1 ++ a :: l2 → a.id = normalizeInput raw →
      (∀ s ∈ l1, s.id ≠ normalizeInput raw) →
      removeParkingSlot st raw =
        if a.status = Status.occupied then Except.error "Cannot remove an occupied slot"
        else Except.ok (l1 ++ l2)) := by
  refine ⟨?_, ?_, ?_⟩
  · intro hblank
    unfold removeParkingSlot
    rw [if_pos hblank]
  · intro hne habs
    unfold removeParkingSlot
    rw [if_neg hne]
    exact removeSlotAux_not_found st (normalizeInput raw) habs
  · intro l1 a l2 hne hst hid hl1
    subst hst
    unfold removeParkingSlot
    rw [if_neg hne, ← hid]
    exact removeSlotAux_append l1 a l2 (by rw [hid]; exact hl1)

/-- Witness for amended C7: removing occupied slot B1 (entered as "b1")
fails with the occupied-slot error. -/
theorem removeSlot_spec_witness :
    removeParkingSlot (initialSlots 0) "b1" =
      Except.error "Cannot remove an occupied slot" := by
  have h := (removeSlot_spec (initialSlots 0) "b1").2.2
    [⟨"A1", Status.available, none, none, none⟩, ⟨"A2", Status.available, none, none, none⟩]
    ⟨"B1", Status.occupied, some "ABC123", some "car", some 0⟩
    [⟨"B2", Status.available, none, none, none⟩]
    (by decide) rfl (by decide) (by decide)
  simpa using h

/-- Claim C8 counterexample: the page-load registry has Available slots,
yet the round trip fails at its first step because ABC123 is already
parked there. -/
theorem round_trip_initial_cex :
    (initialSlots 0).any (fun s => s.status == Status.available) = true ∧
    handleParking (initialSlots 0) "abc123" "car" 5 =
      Except.error "This vehicle is already parked" := by
  refine ⟨by decide, by decide⟩

/-- Claim C8 (amended): in a registry with an Available slot and no
occupied slot holding ABC123, admitting "abc123" (stored normalized as
ABC123) into the earliest Available slot, quoting the release of "ABC123"
(which succeeds and changes nothing), and confirming, returns the chosen
slot to Available with all vehicle fields cleared. -/
theorem round_trip (l1 : List Slot) (a : Slot) (l2 : List Slot) (now now2 : Int)
    (ha : a.status = Status.available)
    (hl1 : ∀ s ∈ l1, s.status ≠ Status.available)
    (hdup : (l1 ++ a :: l2).any (occWith "ABC123") = false) :
    handleParking (l1 ++ a :: l2) "abc123" "car" now =
      Except.ok (a.id, l1 ++
        (⟨a.id, Status.occupied, some "ABC123", some "car", some now⟩ : Slot) :: l2) ∧
    handleRemoval
        (l1 ++ (⟨a.id, Status.occupied, some "ABC123", some "car", some now⟩ : Slot) :: l2)
        "ABC123" now2 =
      Except.ok (computeFee now now2 "car", l1 ++
        (⟨a.id, Status.occupied, some "ABC123", some "car", some now⟩ : Slot) :: l2) ∧
    confirmPayment
        (l1 ++ (⟨a.id, Status.occupied, some "ABC123", some "car", some now⟩ : Slot) :: l2)
        "ABC123" =
      l1 ++ (⟨a.id, Status.available, none, none, none⟩ : Slot) :: l2 := by
  have hn : normalizeInput "abc123" = "ABC123" := by decide
  have hn2 : normalizeInput "ABC123" = "ABC123" := by decide
  have hl1f : ∀ s ∈ l1, occWith "ABC123" s = false := by
    intro s hs
    have := List.any_eq_false.mp hdup s (List.mem_append_left _ hs)
    simpa using this
  have hocc : occWith "ABC123"
      (⟨a.id, Status.occupied, some "ABC123", some "car", some now⟩ : Slot) = true := by
    simp [occWith]
  refine ⟨?_, ?_, ?_⟩
  · unfold handleParking
    rw [hn]
    rw [if_neg (by simp)]
    rw [if_neg (by rw [hdup]; simp)]
    rw [parkFirstAvailable_append l1 a l2 "ABC123" "car" now ha hl1]
  · unfold handleRemoval
    rw [hn2]
    rw [if_neg (by simp)]
    rw [find_occ_append l1 _ l2 "ABC123" hl1f hocc]
    rfl
  · unfold confirmPayment
    rw [hn2]
    exact clearFirst_append l1 _ l2 "ABC123" hl1f hocc

/-- Witness for amended C8: a one-slot registry. -/
theorem round_trip_witness :
    handleParking [(⟨"S1", Status.available, none, none, none⟩ : Slot)] "abc123" "car" 0 =
      Except.ok ("S1", [⟨"S1", Status.occupied, some "ABC123", some "car", some 0⟩]) ∧
    handleRemoval [(⟨"S1", Status.occupied, some "ABC123", some "car", some 0⟩ : Slot)]
        "ABC123" 0 =
      Except.ok (computeFee 0 0 "car",
        [⟨"S1", Status.occupied, some "ABC123", some "car", some 0⟩]) ∧
    confirmPayment [(⟨"S1", Status.occupied, some "ABC123", some "car", some 0⟩ : Slot)]
        "ABC123" =
      [⟨"S1", Status.available, none, none, none⟩] :=
  round_trip [] ⟨"S1", Status.available, none, none, none⟩ [] 0 0
    rfl (by decide) (by decide)

/-- Claim C9 counterexample: blank input fails with the input-validation
alert, not with the duplicate-slot error the claim assigns to the
empty/blank case. -/
theorem addSlot_blank_cex :
    addParkingSlot (initialSlots 0) "   " = Except.error "Please enter a slot ID" ∧
    addParkingSlot (initialSlots 0) "   " ≠ Except.error "Slot already exists" := by
  refine ⟨by decide, by decide⟩

/-- Claim C9 (amended): `addParkingSlot` fails with the duplicate-slot
error whenever the normalized input id (trimmed, uppercased — so ids
differing only by case or surrounding whitespace collide) equals an
existing slot id; a blank id fails with the validation alert; otherwise it
appends a fresh Available slot stored under the normalized id. -/
theorem addSlot_spec (st : List Slot) (raw : String) :
    (normalizeInput raw = "" →
      addParkingSlot st raw = Except.error "Please enter a slot ID") ∧
    (normalizeInput raw ≠ "" → st.any (fun s => s.id == normalizeInput raw) = true →
      addParkingSlot st raw = Except.error "Slot already exists") ∧
    (normalizeInput raw ≠ "" → st.any (fun s => s.id == normalizeInput raw) = false →
      addParkingSlot st raw =
        Except.ok (st ++ [⟨normalizeInput raw, Status.available, none, none, none⟩])) := by
  refine ⟨?_, ?_, ?_⟩
  · intro hblank
    unfold addParkingSlot
    rw [if_pos hblank]
  · intro hne hdup
    unfold addParkingSlot
    rw [if_neg hne, if_pos hdup]
  · intro hne hdup
    unfold addParkingSlot
    rw [if_neg hne, if_neg (by rw [hdup]; simp)]

/-- Witness for amended C9: " a1 " collides with existing slot A1. -/
theorem addSlot_spec_witness :
    addParkingSlot (initialSlots 0) " a1 " = Except.error "Slot already exists" :=
  (addSlot_spec (initialSlots 0) " a1 ").2.1 (by decide) (by decide)

/-- Claim C10: admission validates only non-emptiness of the vehicle type:
any non-empty string — rate-table key or not — is accepted and stored
verbatim on the chosen slot, with only the vehicle number normalized. -/
theorem admit_stores_type_verbatim (l1 : List Slot) (a : Slot) (l2 : List Slot)
    (vnRaw t : String) (now : Int)
    (hvn : normalizeInput vnRaw ≠ "") (ht : t ≠ "")
    (hdup : (l1 ++ a :: l2).any (occWith (normalizeInput vnRaw)) = false)
    (ha : a.status = Status.available)
    (hl1 : ∀ s ∈ l1, s.status ≠ Status.available) :
    ∃ st2, handleParking (l1 ++ a :: l2) vnRaw t now = Except.ok (a.id, st2) ∧
      (⟨a.id, Status.occupied, some (normalizeInput vnRaw), some t, some now⟩ : Slot) ∈ st2 := by
  refine ⟨l1 ++ (⟨a.id, Status.occupied, some (normalizeInput vnRaw), some t, some now⟩ :
    Slot) :: l2, ?_, ?_⟩
  · unfold handleParking
    rw [if_neg (not_or.mpr ⟨hvn, ht⟩)]
    rw [if_neg (by rw [hdup]; simp)]
    rw [parkFirstAvailable_append l1 a l2 (normalizeInput vnRaw) t now ha hl1]
  · exact List.mem_append_right l1 (List.mem_cons_self _ _)

/-- Witness for C10: the type " Bicycle " is not a rate-table key and is
stored untrimmed and unuppercased. -/
theorem admit_stores_type_verbatim_witness :
    parkingRates " Bicycle " = none ∧
    ∃ st2, handleParking [(⟨"S1", Status.available, none, none, none⟩ : Slot)]
        "q7" " Bicycle " 4 = Except.ok ("S1", st2) ∧
      (⟨"S1", Status.occupied, some "Q7", some " Bicycle ", some 4⟩ : Slot) ∈ st2 :=
  ⟨rfl, admit_stores_type_verbatim [] ⟨"S1", Status.available, none, none, none⟩ []
    "q7" " Bicycle " 4 (by decide) (by decide) (by decide) rfl (by decide)⟩

example : normalizeInput "  abc123 " = "ABC123" := by decide

example : handleParking (initialSlots 0) "zz9" "car" 7 =
    Except.ok ("A1", [⟨"A1", Status.occupied, some "ZZ9", some "car", some 7⟩,
      ⟨"A2", Status.available, none, none, none⟩,
      ⟨"B1", Status.occupied, some "ABC123", some "car", some 0⟩,
      ⟨"B2", Status.available, none, none, none⟩]) := by decide

example : computeFee 0 3660000 "car" = FeeVal.num 5 := by
  simp only [computeFee, parkingRates]
  norm_num
  rw [show (⌈(61 / 60 : ℚ)⌉ : ℤ) = 2 from by
    rw [Int.ceil_eq_iff]
    norm_num]
  norm_num

example : computeFee 7200000 0 "car" = FeeVal.num (-5) := by
  simp only [computeFee, parkingRates]
  norm_num
  rw [show (⌈(-2 : ℚ)⌉ : ℤ) = -2 from by
    rw [Int.ceil_eq_iff]
    norm_num]
  norm_num
